import Mathlib

/-!
Shallow embedding of the Sentinel Gold Trader MT5 trading system
(`mt5_trading_system.py`): the market-data failover chain, the risk gate,
order execution and the CSV audit ledgers, together with theorems that
check the specification's claims against this embedding.

Conventions: Python floats are modelled as rationals; a Python function
that can raise returns an `Option`, with `none` standing for the
propagated exception; the environment a call runs against (broker
responses, HTTP responses) is passed explicitly as a structure.
-/

set_option maxRecDepth 8000

namespace Sentinel

/-- Python division `a / b`, which raises `ZeroDivisionError` when `b = 0`;
`none` models the raised exception. -/
def pyDiv (a b : ℚ) : Option ℚ :=
  if b = 0 then none else some (a / b)

/-- Python `round` to an integer: round half to even. -/
def pyRound (x : ℚ) : ℤ :=
  if x - ⌊x⌋ < 1 / 2 then ⌊x⌋
  else if 1 / 2 < x - ⌊x⌋ then ⌊x⌋ + 1
  else if ⌊x⌋ % 2 = 0 then ⌊x⌋ else ⌊x⌋ + 1

/-- Python `round(x, 2)`: round to two decimal places. -/
def round2 (x : ℚ) : ℚ :=
  (pyRound (x * 100) : ℚ) / 100

/-! ## Market data (`MarketDataFetcher`) -/

/-- Live tick as reported by the MT5 terminal (`mt5.symbol_info_tick`). -/
structure Tick where
  bid : ℚ
  ask : ℚ
  time : ℤ
deriving DecidableEq, Repr

/-- Quote dict returned by the fetchers: `{price, bid, ask, timestamp, source}`. -/
structure Quote where
  price : ℚ
  bid : ℚ
  ask : ℚ
  timestamp : ℤ
  source : String
deriving DecidableEq, Repr

/-- Alpha Vantage HTTP response as seen by `_fetch_from_alpha_vantage`:
HTTP status, presence of a non-empty `"Global Quote"` object, and the
parsed `"05. price"` field (`float(quote.get("05. price", 0))`). -/
structure AVResponse where
  status_ok : Bool
  has_global_quote : Bool
  price : ℚ
deriving DecidableEq, Repr

/-- Finnhub HTTP response as seen by `_fetch_from_finnhub`: HTTP status and
the `data.get('c', 0)` current price. -/
structure FHResponse where
  status_ok : Bool
  price : ℚ
deriving DecidableEq, Repr

/-- Environment a single `get_live_price` call runs against. A `none`
response models a transport or parse exception caught by the fetcher. -/
structure MarketEnv where
  mt5_init_ok : Bool
  mt5_tick : Option Tick
  alpha_vantage_key : Bool
  av : Option AVResponse
  fh : Option FHResponse
  now : ℤ
deriving DecidableEq, Repr

/-- `MarketDataFetcher._fetch_from_mt5`: returns the tick repackaged as a
quote, with mid price `(bid + ask) / 2`. Note: no validity check is made
on the tick's fields. -/
def fetch_from_mt5 (env : MarketEnv) : Option Quote :=
  if env.mt5_init_ok = false then none
  else
    match env.mt5_tick with
    | none => none
    | some t =>
        some { price := (t.bid + t.ask) / 2, bid := t.bid, ask := t.ask,
               timestamp := t.time, source := "MT5" }

/-- `MarketDataFetcher._fetch_from_alpha_vantage`: fails on HTTP error,
missing `"Global Quote"`, or a price equal to `0`; otherwise synthesizes
`bid = price - 0.5`, `ask = price + 0.5`. -/
def fetch_from_alpha_vantage (env : MarketEnv) : Option Quote :=
  match env.av with
  | none => none
  | some r =>
      if r.status_ok = false then none
      else if r.has_global_quote = false then none
      else if r.price = 0 then none
      else
        some { price := r.price, bid := r.price - 1 / 2, ask := r.price + 1 / 2,
               timestamp := env.now, source := "AlphaVantage" }

/-- `MarketDataFetcher._fetch_from_finnhub`: fails on HTTP error or a price
equal to `0`; otherwise synthesizes `bid = price - 0.5`, `ask = price + 0.5`. -/
def fetch_from_finnhub (env : MarketEnv) : Option Quote :=
  match env.fh with
  | none => none
  | some r =>
      if r.status_ok = false then none
      else if r.price = 0 then none
      else
        some { price := r.price, bid := r.price - 1 / 2, ask := r.price + 1 / 2,
               timestamp := env.now, source := "Finnhub" }

/-- `MarketDataFetcher.get_live_price`: MT5 first, then Alpha Vantage (only
when an API key is configured), then Finnhub; the first fetcher returning a
quote wins. The request-throttling sleep at the head of the method has no
bearing on the returned value and is not modelled. -/
def get_live_price (env : MarketEnv) : Option Quote :=
  match fetch_from_mt5 env with
  | some q => some q
  | none =>
      if env.alpha_vantage_key then
        match fetch_from_alpha_vantage env with
        | some q => some q
        | none =>
            match fetch_from_finnhub env with
            | some q => some q
            | none => none
      else
        match fetch_from_finnhub env with
        | some q => some q
        | none => none

/-- The source chain `get_live_price` walks, in priority order, paired with
each source's fetch result. Alpha Vantage appears only when a key is
configured, exactly as in the code. -/
def sourceChain (env : MarketEnv) : List (String × Option Quote) :=
  ("MT5", fetch_from_mt5 env) ::
    ((if env.alpha_vantage_key then
        [("AlphaVantage", fetch_from_alpha_vantage env)]
      else []) ++
      [("Finnhub", fetch_from_finnhub env)])

/-- First successful result of a fetch chain, together with the names of
the sources actually queried (the walked prefix). -/
def firstSome : List (String × Option Quote) → Option Quote × List String
  | [] => (none, [])
  | (name, r) :: rest =>
      match r with
      | some q => (some q, [name])
      | none => ((firstSome rest).1, name :: (firstSome rest).2)

/-- Names of the sources a `get_live_price` call queries, in order. -/
def queried_sources (env : MarketEnv) : List String :=
  (firstSome (sourceChain env)).2

/-! ## Risk manager (`RiskManager`) -/

/-- Mutable attributes of a `RiskManager` instance as set in `__init__`:
configured limits plus the running day-tracking fields. -/
structure RiskManagerState where
  max_risk_per_trade : ℚ
  max_positions : ℕ
  max_daily_loss : ℚ
  max_drawdown : ℚ
  daily_loss : ℚ
  daily_trades : ℕ
  day_start_balance : ℚ
deriving DecidableEq, Repr

/-- Account snapshot fields read by `check_trading_allowed`. -/
structure AccountInfo where
  balance : ℚ
  equity : ℚ
  margin_level : ℚ
deriving DecidableEq, Repr

/-- Outcome tag of `check_trading_allowed`; the constructors mirror the
four distinct reason strings, each carrying the figure interpolated into
the corresponding f-string. -/
inductive GateReason where
  | dailyLossLimit (ratio : ℚ)
  | drawdownLimit (ratio : ℚ)
  | marginLevelLow (level : ℚ)
  | allowedOk
deriving DecidableEq, Repr

/-- Gate checks of `RiskManager.check_trading_allowed`, run against the
state after the lazy day-start initialization: daily loss, then drawdown,
then margin level; `none` models a propagated `ZeroDivisionError`. -/
def check_gates (st1 : RiskManagerState) (acct : AccountInfo) :
    Option (Bool × GateReason) :=
  match pyDiv (st1.day_start_balance - acct.balance) st1.day_start_balance with
  | none => none
  | some current_daily_loss =>
      if st1.max_daily_loss ≤ current_daily_loss then
        some (false, GateReason.dailyLossLimit current_daily_loss)
      else
        match pyDiv (acct.balance - acct.equity) acct.balance with
        | none => none
        | some drawdown =>
            if st1.max_drawdown ≤ drawdown then
              some (false, GateReason.drawdownLimit drawdown)
            else if acct.margin_level < 200 then
              some (false, GateReason.marginLevelLow acct.margin_level)
            else
              some (true, GateReason.allowedOk)

/-- `RiskManager.check_trading_allowed`: lazily captures the day-start
balance when it is still `0`, then runs the three gate checks. The second
component is the instance state after the call (the method's only
assignment is the lazy `day_start_balance` capture). -/
def check_trading_allowed (st : RiskManagerState) (acct : AccountInfo) :
    Option (Bool × GateReason) × RiskManagerState :=
  let st1 :=
    if st.day_start_balance = 0 then
      { st with day_start_balance := acct.balance }
    else st
  (check_gates st1 acct, st1)

/-- Lot-size bounds read from the config by `calculate_position_size`
(`min_lot_size`, default `0.01`; `max_lot_size`, default `10.0`). -/
structure LotConfig where
  min_lot_size : ℚ
  max_lot_size : ℚ
deriving DecidableEq, Repr

/-- Body of `RiskManager.calculate_position_size` inside its `try`:
`none` models a raised exception (which the enclosing handler would turn
into `0`). The zero-distance guard returns `0` before any division. -/
def calculate_position_size_steps (st : RiskManagerState) (cfg : LotConfig)
    (account_balance entry_price stop_loss : ℚ) : Option ℚ :=
  let risk_amount := account_balance * st.max_risk_per_trade
  let points_at_risk := |entry_price - stop_loss|
  if points_at_risk = 0 then some 0
  else
    let value_per_point : ℚ := 1
    match pyDiv risk_amount (points_at_risk * value_per_point) with
    | none => none
    | some lot_size =>
        some (max cfg.min_lot_size (min (round2 lot_size) cfg.max_lot_size))

/-- `RiskManager.calculate_position_size`: the `try` body, with the
`except` handler mapping any raised exception to `0`. -/
def calculate_position_size (st : RiskManagerState) (cfg : LotConfig)
    (account_balance entry_price stop_loss : ℚ) : ℚ :=
  (calculate_position_size_steps st cfg account_balance entry_price stop_loss).getD 0

/-! ## Trade execution (`MT5Executor`) -/

/-- Order side passed to `open_position` (the `'buy'` / `'sell'` string). -/
inductive Side where
  | buy
  | sell
deriving DecidableEq, Repr

/-- Result object returned by `mt5.order_send`. -/
structure OrderSendResult where
  retcode : ℕ
  order : ℕ
  volume : ℚ
  price : ℚ
deriving DecidableEq, Repr

/-- The `mt5.TRADE_RETCODE_DONE` success code. -/
def TRADE_RETCODE_DONE : ℕ := 10009

/-- Environment a single `open_position` call runs against: connection
state, symbol lookup and selection, the live tick, and the broker's
response to `order_send` (`none` when `order_send` itself returns `None`). -/
structure ExecEnv where
  init_ok : Bool
  symbol_found : Bool
  symbol_visible : Bool
  symbol_select_ok : Bool
  tick : Option Tick
  send_result : Option OrderSendResult
  now : ℤ
deriving DecidableEq, Repr

/-- Dict returned by a successful `MT5Executor.open_position`. -/
structure OpenResult where
  ticket : ℕ
  volume : ℚ
  price : ℚ
  side : Side
  sl : ℚ
  tp : ℚ
  comment : String
  timestamp : ℤ
deriving DecidableEq, Repr

/-- `MT5Executor.open_position`: every early exit and the non-success
retcode path return `None`; only `retcode = TRADE_RETCODE_DONE` yields a
result dict. -/
def open_position (env : ExecEnv) (side : Side) (volume sl tp : ℚ)
    (comment : String) : Option OpenResult :=
  if env.init_ok = false then none
  else if env.symbol_found = false then none
  else if env.symbol_visible = false ∧ env.symbol_select_ok = false then none
  else
    match env.tick with
    | none => none
    | some t =>
        let _price := match side with
          | Side.buy => t.ask
          | Side.sell => t.bid
        match env.send_result with
        | none => none
        | some r =>
            if r.retcode ≠ TRADE_RETCODE_DONE then none
            else
              some { ticket := r.order, volume := r.volume, price := r.price,
                     side := side, sl := sl, tp := tp, comment := comment,
                     timestamp := env.now }

/-! ## Audit ledgers (`TradeLogger`) -/

/-- One CSV cell as written by `csv.writer`: the Python value placed in
the row (string, integer timestamp, ticket number, or numeric field). -/
inductive Cell where
  | str (s : String)
  | int (n : ℤ)
  | nat (n : ℕ)
  | rat (q : ℚ)
deriving DecidableEq, Repr

/-- The `trade_data` dict passed to `log_trade`; `none` models an absent
key, for which `dict.get` supplies the column's default. The `side` field
models the dict key `'type'`. -/
structure TradeData where
  timestamp : Option ℤ
  ticket : Option ℕ
  symbol : Option String
  side : Option String
  volume : Option ℚ
  entry_price : Option ℚ
  exit_price : Option ℚ
  sl : Option ℚ
  tp : Option ℚ
  profit : Option ℚ
  comment : Option String
  status : Option String
deriving DecidableEq, Repr

/-- The twelve-column row `log_trade` writes, with each `dict.get` default
applied (`datetime.now()` for the timestamp — passed here as `now` —,
`''` for text columns, `0` for numeric ones). -/
def tradeRow (now : ℤ) (td : TradeData) : List Cell :=
  [ Cell.int (td.timestamp.getD now),
    (match td.ticket with
     | some n => Cell.nat n
     | none => Cell.str ""),
    Cell.str (td.symbol.getD ""),
    Cell.str (td.side.getD ""),
    Cell.rat (td.volume.getD 0),
    Cell.rat (td.entry_price.getD 0),
    Cell.rat (td.exit_price.getD 0),
    Cell.rat (td.sl.getD 0),
    Cell.rat (td.tp.getD 0),
    Cell.rat (td.profit.getD 0),
    Cell.str (td.comment.getD ""),
    Cell.str (td.status.getD "") ]

/-- `TradeLogger.log_trade`: opens the trades file in append mode and
writes exactly one row at its end. -/
def log_trade (now : ℤ) (rows : List (List Cell)) (td : TradeData) :
    List (List Cell) :=
  rows ++ [tradeRow now td]

/-- A sequence of `log_trade` calls performed one after the other against
the same trades file. -/
def log_trades (now : ℤ) : List (List Cell) → List TradeData → List (List Cell)
  | rows, [] => rows
  | rows, td :: rest => log_trades now (log_trade now rows td) rest

/-- One row of the events file written by `TradeLogger.log_event`. -/
structure EventRow where
  timestamp : ℤ
  event_type : String
  description : String
  data : String
deriving DecidableEq, Repr

/-- `TradeLogger.log_event`: appends one row to the events file. -/
def log_event (now : ℤ) (events : List EventRow)
    (ty descr payload : String) : List EventRow :=
  events ++ [{ timestamp := now, event_type := ty, description := descr,
               data := payload }]

/-- The two durable ledgers owned by a `TradeLogger`. -/
structure Ledgers where
  trades : List (List Cell)
  events : List EventRow
deriving DecidableEq, Repr

/-! ## Orchestrator (`TradingSystem._execute_buy`) -/

/-- Config values `_execute_buy` reads: `default_sl_points` (default 10)
and `default_tp_points` (default 20). -/
structure SysConfig where
  default_sl_points : ℚ
  default_tp_points : ℚ
deriving DecidableEq, Repr

/-- `TradingSystem._execute_buy`: computes stop-loss/take-profit offsets,
sizes the position, skips the trade on zero volume, submits the order,
and on success appends one `'opened'` row to the trade ledger. No call to
`log_event` appears anywhere in the method. -/
def execute_buy (sys : SysConfig) (risk : RiskManagerState) (lots : LotConfig)
    (env : ExecEnv) (symbol : String) (ask balance : ℚ) (led : Ledgers) :
    Ledgers :=
  let entry_price := ask
  let sl := entry_price - sys.default_sl_points
  let tp := entry_price + sys.default_tp_points
  let volume := calculate_position_size risk lots balance entry_price sl
  if volume = 0 then led
  else
    match open_position env Side.buy volume sl tp "Auto buy" with
    | none => led
    | some result =>
        { led with
            trades := log_trade result.timestamp led.trades
              { timestamp := some result.timestamp,
                ticket := some result.ticket,
                symbol := some symbol,
                side := some "buy",
                volume := some volume,
                entry_price := some entry_price,
                exit_price := none,
                sl := some sl,
                tp := some tp,
                profit := none,
                comment := none,
                status := some "opened" } }

/-! ## Helper lemmas -/

/-- Default limits from `RiskManager.__init__` with the day-start balance
already captured at 10000. -/
def riskStateD : RiskManagerState :=
  { max_risk_per_trade := 2 / 100, max_positions := 3,
    max_daily_loss := 5 / 100, max_drawdown := 10 / 100,
    daily_loss := 0, daily_trades := 0, day_start_balance := 10000 }

/-- Default lot bounds from the config defaults. -/
def lotCfgD : LotConfig :=
  { min_lot_size := 1 / 100, max_lot_size := 10 }

/-- Characterization of the gate checks when the (post-capture) day-start
balance and the snapshot balance are both nonzero: no division can raise,
and the three checks run in their fixed order. -/
theorem check_gates_eval (st1 : RiskManagerState) (acct : AccountInfo)
    (hds : st1.day_start_balance ≠ 0) (hb : acct.balance ≠ 0) :
    check_gates st1 acct =
      (if st1.max_daily_loss ≤
          (st1.day_start_balance - acct.balance) / st1.day_start_balance then
        some (false, GateReason.dailyLossLimit
          ((st1.day_start_balance - acct.balance) / st1.day_start_balance))
      else if st1.max_drawdown ≤ (acct.balance - acct.equity) / acct.balance then
        some (false, GateReason.drawdownLimit
          ((acct.balance - acct.equity) / acct.balance))
      else if acct.margin_level < 200 then
        some (false, GateReason.marginLevelLow acct.margin_level)
      else
        some (true, GateReason.allowedOk)) := by
  unfold check_gates pyDiv
  simp only [if_neg hds, if_neg hb]

/-- The daily-loss check short-circuits: once it fires, the result is the
daily-loss block no matter what the later checks would have seen. -/
theorem check_gates_daily_fires (st1 : RiskManagerState) (acct : AccountInfo)
    (hds : st1.day_start_balance ≠ 0)
    (h : st1.max_daily_loss ≤
        (st1.day_start_balance - acct.balance) / st1.day_start_balance) :
    check_gates st1 acct =
      some (false, GateReason.dailyLossLimit
        ((st1.day_start_balance - acct.balance) / st1.day_start_balance)) := by
  unfold check_gates pyDiv
  simp only [if_neg hds, if_pos h]

/-- The state returned by `check_trading_allowed` is the input state with
only the lazy day-start capture applied. -/
theorem check_trading_allowed_state (st : RiskManagerState) (acct : AccountInfo) :
    (check_trading_allowed st acct).2 =
      if st.day_start_balance = 0 then
        { st with day_start_balance := acct.balance }
      else st := rfl

/-! ## Claim C6 -/

/-- C6: for every balance and every entry price equal to the stop-loss
price (points at risk = 0), `calculate_position_size` returns 0, and the
`try` body completes without any division (so no `ZeroDivisionError`):
the step evaluation is `some 0`, not an exception. -/
theorem c6_zero_distance_zero_volume (st : RiskManagerState) (cfg : LotConfig)
    (balance entry : ℚ) :
    calculate_position_size_steps st cfg balance entry entry = some 0 ∧
    calculate_position_size st cfg balance entry entry = 0 := by
  have h : calculate_position_size_steps st cfg balance entry entry = some 0 := by
    unfold calculate_position_size_steps
    simp
  exact ⟨h, by unfold calculate_position_size; rw [h]; rfl⟩

/-! ## Claim C8 -/

/-- Unrolling a sequence of `log_trade` calls: the ledger gains exactly
the corresponding rows, appended at the end in call order. -/
theorem log_trades_eq (now : ℤ) :
    ∀ (tds : List TradeData) (rows : List (List Cell)),
      log_trades now rows tds = rows ++ tds.map (tradeRow now)
  | [], rows => by simp [log_trades]
  | td :: rest, rows => by
      rw [show log_trades now rows (td :: rest) =
            log_trades now (log_trade now rows td) rest from rfl,
          log_trades_eq now rest]
      simp [log_trade]

/-- C8: N sequential `log_trade` calls append exactly N rows to the trade
ledger, in call order, leaving every earlier row in place. -/
theorem c8_log_trades_appends_in_order (now : ℤ) (rows : List (List Cell))
    (tds : List TradeData) :
    log_trades now rows tds = rows ++ tds.map (tradeRow now) ∧
    (log_trades now rows tds).length = rows.length + tds.length := by
  refine ⟨log_trades_eq now tds rows, ?_⟩
  rw [log_trades_eq now tds rows]
  simp

/-! ## Claim C10 -/

/-- C10: `check_trading_allowed` leaves every field of the risk-manager
state unchanged except the lazy day-start capture: when the stored
day-start balance is 0 it becomes the snapshot's balance, otherwise it too
is unchanged. -/
theorem c10_state_frame (st : RiskManagerState) (acct : AccountInfo) :
    (check_trading_allowed st acct).2.max_risk_per_trade = st.max_risk_per_trade ∧
    (check_trading_allowed st acct).2.max_positions = st.max_positions ∧
    (check_trading_allowed st acct).2.max_daily_loss = st.max_daily_loss ∧
    (check_trading_allowed st acct).2.max_drawdown = st.max_drawdown ∧
    (check_trading_allowed st acct).2.daily_loss = st.daily_loss ∧
    (check_trading_allowed st acct).2.daily_trades = st.daily_trades ∧
    (check_trading_allowed st acct).2.day_start_balance =
      (if st.day_start_balance = 0 then acct.balance else st.day_start_balance) := by
  by_cases hz : st.day_start_balance = 0 <;>
    simp [check_trading_allowed, hz]

/-! ## Claim C5 -/

/-- Risk-manager state fresh out of `__init__` (day-start balance not yet
captured). -/
def riskStateFresh : RiskManagerState :=
  { riskStateD with day_start_balance := 0 }

/-- C5 counterexample: on a fresh gate (day-start balance 0) a snapshot
with balance 0 makes `check_trading_allowed` raise `ZeroDivisionError`
(the daily-loss ratio divides by the just-captured zero balance), so the
claim that it always returns a decision is false. -/
theorem c5_claim_counterexample :
    (check_trading_allowed riskStateFresh
        { balance := 0, equity := 5, margin_level := 300 }).1 = none := by
  decide

/-- C5 as amended: for every gate state and every snapshot whose balance
is nonzero, `check_trading_allowed` returns an (allowed, reason) decision
rather than raising. -/
theorem c5_total_for_nonzero_balance (st : RiskManagerState)
    (acct : AccountInfo) (hb : acct.balance ≠ 0) :
    ((check_trading_allowed st acct).1).isSome = true := by
  have hds : (check_trading_allowed st acct).2.day_start_balance ≠ 0 := by
    rw [check_trading_allowed_state]
    by_cases hz : st.day_start_balance = 0 <;> simp [hz, hb]
  have h1 : (check_trading_allowed st acct).1 =
      check_gates (check_trading_allowed st acct).2 acct := rfl
  rw [h1, check_gates_eval _ _ hds hb]
  split_ifs <;> rfl

/-- Witness for C5 as amended: a fresh gate and a positive balance yield a
decision. -/
theorem c5_total_for_nonzero_balance_witness :
    ((10000 : ℚ) ≠ 0) ∧
    ((check_trading_allowed riskStateFresh
        { balance := 10000, equity := 9800, margin_level := 300 }).1).isSome = true :=
  ⟨by norm_num,
   c5_total_for_nonzero_balance riskStateFresh
     { balance := 10000, equity := 9800, margin_level := 300 } (by norm_num)⟩

/-! ## Claim C1 -/

/-- C1: with the day-start balance already positive, the three gate checks
run in the fixed order daily-loss, drawdown, margin-level; the first check
that fires fixes the result with its own distinct reason, independently of
the fields only later checks read (the daily-loss block holds for every
equity and margin level, the drawdown block for every margin level). In
particular, for balance 10000, day-start 10000, equity 8900, margin level
300, the decision is the drawdown block at ratio 11%. -/
theorem c1_gate_check_order (st : RiskManagerState) (b e ml : ℚ)
    (hds : 0 < st.day_start_balance) :
    ((st.max_daily_loss ≤
        (st.day_start_balance - b) / st.day_start_balance →
      ∀ e2 m2 : ℚ,
        (check_trading_allowed st
            { balance := b, equity := e2, margin_level := m2 }).1 =
          some (false, GateReason.dailyLossLimit
            ((st.day_start_balance - b) / st.day_start_balance))) ∧
     (b ≠ 0 →
      (st.day_start_balance - b) / st.day_start_balance < st.max_daily_loss →
      st.max_drawdown ≤ (b - e) / b →
      ∀ m2 : ℚ,
        (check_trading_allowed st
            { balance := b, equity := e, margin_level := m2 }).1 =
          some (false, GateReason.drawdownLimit ((b - e) / b))) ∧
     (b ≠ 0 →
      (st.day_start_balance - b) / st.day_start_balance < st.max_daily_loss →
      (b - e) / b < st.max_drawdown →
      ml < 200 →
      (check_trading_allowed st
          { balance := b, equity := e, margin_level := ml }).1 =
        some (false, GateReason.marginLevelLow ml)) ∧
     (b ≠ 0 →
      (st.day_start_balance - b) / st.day_start_balance < st.max_daily_loss →
      (b - e) / b < st.max_drawdown →
      200 ≤ ml →
      (check_trading_allowed st
          { balance := b, equity := e, margin_level := ml }).1 =
        some (true, GateReason.allowedOk))) ∧
    (check_trading_allowed riskStateD
        { balance := 10000, equity := 8900, margin_level := 300 }).1 =
      some (false, GateReason.drawdownLimit (11 / 100)) := by
  have hne : st.day_start_balance ≠ 0 := ne_of_gt hds
  have hst : ∀ a : AccountInfo, (check_trading_allowed st a).1 = check_gates st a := by
    intro a
    show check_gates (if st.day_start_balance = 0 then _ else st) a = _
    rw [if_neg hne]
  refine ⟨⟨?_, ?_, ?_, ?_⟩, ?_⟩
  · intro h e2 m2
    rw [hst]
    exact check_gates_daily_fires st { balance := b, equity := e2, margin_level := m2 } hne h
  · intro hb hdl hdd m2
    rw [hst,
      check_gates_eval st { balance := b, equity := e, margin_level := m2 } hne hb]
    simp only [if_neg (not_le.mpr hdl), if_pos hdd]
  · intro hb hdl hdd hm
    rw [hst,
      check_gates_eval st { balance := b, equity := e, margin_level := ml } hne hb]
    simp only [if_neg (not_le.mpr hdl), if_neg (not_le.mpr hdd), if_pos hm]
  · intro hb hdl hdd hm
    rw [hst,
      check_gates_eval st { balance := b, equity := e, margin_level := ml } hne hb]
    simp only [if_neg (not_le.mpr hdl), if_neg (not_le.mpr hdd),
      if_neg (not_lt.mpr hm)]
  · have hne10 : riskStateD.day_start_balance ≠ 0 := by norm_num [riskStateD]
    have hst10 : (check_trading_allowed riskStateD
        { balance := 10000, equity := 8900, margin_level := 300 }).1 =
        check_gates riskStateD { balance := 10000, equity := 8900, margin_level := 300 } := by
      show check_gates (if riskStateD.day_start_balance = 0 then _ else riskStateD) _ = _
      rw [if_neg hne10]
    rw [hst10,
      check_gates_eval riskStateD
        { balance := 10000, equity := 8900, margin_level := 300 } hne10 (by norm_num)]
    norm_num [riskStateD]

/-- Witness for C1: the day-start balance 10000 is positive, and the
spec's concrete snapshot produces the drawdown block. -/
theorem c1_gate_check_order_witness :
    (0 : ℚ) < 10000 ∧
    (check_trading_allowed riskStateD
        { balance := 10000, equity := 8900, margin_level := 300 }).1 =
      some (false, GateReason.drawdownLimit (11 / 100)) :=
  ⟨by norm_num,
   (c1_gate_check_order riskStateD 10000 8900 300 (by norm_num [riskStateD])).2⟩

/-! ## Claim C9 -/

/-- C9: the margin floor in `check_trading_allowed` is the fixed constant
200 compared strictly: when the daily loss and drawdown are below their
caps, a margin level of exactly 200 yields ALLOW, and the margin block
fires exactly when the margin level is strictly below 200. -/
theorem c9_margin_floor_strict_200 (st : RiskManagerState) (acct : AccountInfo)
    (hds : 0 < st.day_start_balance) (hb : acct.balance ≠ 0)
    (hdl : (st.day_start_balance - acct.balance) / st.day_start_balance <
        st.max_daily_loss)
    (hdd : (acct.balance - acct.equity) / acct.balance < st.max_drawdown) :
    (acct.margin_level = 200 →
      (check_trading_allowed st acct).1 = some (true, GateReason.allowedOk)) ∧
    ((check_trading_allowed st acct).1 =
        some (false, GateReason.marginLevelLow acct.margin_level) ↔
      acct.margin_level < 200) := by
  have hne : st.day_start_balance ≠ 0 := ne_of_gt hds
  have hst : (check_trading_allowed st acct).1 = check_gates st acct := by
    show check_gates (if st.day_start_balance = 0 then _ else st) acct = _
    rw [if_neg hne]
  rw [hst, check_gates_eval st acct hne hb]
  simp only [if_neg (not_le.mpr hdl), if_neg (not_le.mpr hdd)]
  constructor
  · intro hm
    rw [if_neg (by rw [hm]; exact lt_irrefl 200)]
  · constructor
    · intro h
      by_contra hm
      rw [if_neg hm] at h
      exact absurd h (by simp)
    · intro hm
      rw [if_pos hm]

/-- Witness for C9: at the default limits with balance 10000, equity 9800
and margin level exactly 200, the gate allows trading. -/
theorem c9_margin_floor_strict_200_witness :
    (0 : ℚ) < 10000 ∧ ((10000 : ℚ) ≠ 0) ∧
    ((10000 - 10000 : ℚ) / 10000 < 5 / 100) ∧
    (((10000 : ℚ) - 9800) / 10000 < 10 / 100) ∧
    (check_trading_allowed riskStateD
        { balance := 10000, equity := 9800, margin_level := 200 }).1 =
      some (true, GateReason.allowedOk) :=
  ⟨by norm_num, by norm_num, by norm_num, by norm_num,
   (c9_margin_floor_strict_200 riskStateD
      { balance := 10000, equity := 9800, margin_level := 200 }
      (by norm_num [riskStateD]) (by norm_num)
      (by norm_num [riskStateD]) (by norm_num [riskStateD])).1 rfl⟩

/-! ## Claim C7 -/

/-- C7: for every balance > 0 and entry/stop pair at nonzero distance
(with a well-formed lot interval), `calculate_position_size` equals the
risk amount over points-at-risk times value-per-point, rounded to two
decimals and clamped to the configured lot interval, and the result lies
within that interval. -/
theorem c7_volume_within_lot_bounds (st : RiskManagerState) (cfg : LotConfig)
    (balance entry stop : ℚ) (hb : 0 < balance) (hne : entry ≠ stop)
    (hlots : cfg.min_lot_size ≤ cfg.max_lot_size) :
    calculate_position_size st cfg balance entry stop =
      max cfg.min_lot_size
        (min (round2 (balance * st.max_risk_per_trade / (|entry - stop| * 1)))
          cfg.max_lot_size) ∧
    cfg.min_lot_size ≤ calculate_position_size st cfg balance entry stop ∧
    calculate_position_size st cfg balance entry stop ≤ cfg.max_lot_size := by
  have hpts : |entry - stop| ≠ 0 := by
    rw [abs_ne_zero, sub_ne_zero]
    exact hne
  have hdvsr : |entry - stop| * 1 ≠ 0 := by
    rw [mul_one]
    exact hpts
  have heq : calculate_position_size st cfg balance entry stop =
      max cfg.min_lot_size
        (min (round2 (balance * st.max_risk_per_trade / (|entry - stop| * 1)))
          cfg.max_lot_size) := by
    unfold calculate_position_size calculate_position_size_steps pyDiv
    simp only [if_neg hpts, if_neg hdvsr, Option.getD_some]
  refine ⟨heq, ?_, ?_⟩
  · rw [heq]
    exact le_max_left _ _
  · rw [heq]
    exact max_le hlots (min_le_right _ _)

/-- Witness for C7: balance 10000, entry 2000, stop 1990 at the default
limits sizes to 10 lots, inside the default lot interval. -/
theorem c7_volume_within_lot_bounds_witness :
    (0 : ℚ) < 10000 ∧ ((2000 : ℚ) ≠ 1990) ∧
    lotCfgD.min_lot_size ≤ lotCfgD.max_lot_size ∧
    (lotCfgD.min_lot_size ≤ calculate_position_size riskStateD lotCfgD 10000 2000 1990 ∧
     calculate_position_size riskStateD lotCfgD 10000 2000 1990 ≤ lotCfgD.max_lot_size) ∧
    calculate_position_size riskStateD lotCfgD 10000 2000 1990 = 10 :=
  ⟨by norm_num, by norm_num, by norm_num [lotCfgD],
   (c7_volume_within_lot_bounds riskStateD lotCfgD 10000 2000 1990
      (by norm_num) (by norm_num) (by norm_num [lotCfgD])).2,
   by with_unfolding_all decide⟩

/-! ## Claim C2 -/

/-- Walking a fetch chain: if everything before position `i` failed and
position `i` produced a quote, that quote is the overall result and the
walk stops right after position `i`. -/
theorem firstSome_spec :
    ∀ (l : List (String × Option Quote)) (i : ℕ) (name : String) (q : Quote),
      (∀ p ∈ l.take i, p.2 = none) →
      l.get? i = some (name, some q) →
      (firstSome l).1 = some q ∧
        (firstSome l).2 = (l.take (i + 1)).map Prod.fst := by
  intro l
  induction l with
  | nil =>
      intro i name q hfail hget
      simp [List.get?] at hget
  | cons hd tl ih =>
      intro i name q hfail hget
      obtain ⟨hname, r⟩ := hd
      cases i with
      | zero =>
          simp only [List.get?, Option.some.injEq] at hget
          injection hget with h1 h2
          subst h2
          simp [firstSome]
      | succ i =>
          have hr : r = none := hfail (hname, r) (by simp [List.take])
          subst hr
          have htl := ih i name q
            (fun p hp => hfail p (by simp [List.take, hp]))
            (by simpa using hget)
          simp [firstSome, List.take, htl.1, htl.2]

/-- The priority walk of `get_live_price` is exactly the first-success
walk of its source chain. -/
theorem get_live_price_eq_firstSome (env : MarketEnv) :
    get_live_price env = (firstSome (sourceChain env)).1 := by
  unfold get_live_price sourceChain
  cases hm : fetch_from_mt5 env with
  | some q => simp [firstSome]
  | none =>
      by_cases hk : env.alpha_vantage_key
      · cases ha : fetch_from_alpha_vantage env <;>
          cases hf : fetch_from_finnhub env <;>
            simp [hk, firstSome, ha, hf]
      · cases hf : fetch_from_finnhub env <;>
          simp [hk, firstSome, hf]

/-- C2 as amended: along the code's fixed priority chain (MT5, then Alpha
Vantage when a key is configured, then Finnhub), if every source before
position `i` fails by the code's own acceptance rules and source `i`
produces a quote, `get_live_price` returns that quote unchanged and the
sources after `i` are not queried. -/
theorem c2_first_success_short_circuit (env : MarketEnv) (i : ℕ)
    (name : String) (q : Quote)
    (hfail : ∀ p ∈ (sourceChain env).take i, p.2 = none)
    (hok : (sourceChain env).get? i = some (name, some q)) :
    get_live_price env = some q ∧
    queried_sources env = ((sourceChain env).take (i + 1)).map Prod.fst := by
  have hs := firstSome_spec (sourceChain env) i name q hfail hok
  exact ⟨(get_live_price_eq_firstSome env).trans hs.1, hs.2⟩

/-- Witness environment for C2 as amended: MT5 refuses connection, no
Alpha Vantage key, Finnhub answers. -/
def envC2w : MarketEnv :=
  { mt5_init_ok := false, mt5_tick := none, alpha_vantage_key := false,
    av := none, fh := some { status_ok := true, price := 100 }, now := 2 }

/-- The quote the Finnhub fetcher synthesizes in `envC2w`. -/
def fhQuoteC2w : Quote :=
  { price := 100, bid := 199 / 2, ask := 201 / 2, timestamp := 2,
    source := "Finnhub" }

/-- Evaluation of the source chain in the C2 witness environment. -/
theorem sourceChain_envC2w :
    sourceChain envC2w = [("MT5", none), ("Finnhub", some fhQuoteC2w)] := by
  norm_num [sourceChain, fetch_from_mt5, fetch_from_finnhub, envC2w,
    fhQuoteC2w, Quote.mk.injEq]

/-- Witness for C2 as amended: with MT5 failing and no Alpha Vantage key,
the Finnhub quote (position 1 of the chain) is returned unchanged and
exactly the two walked sources were queried. -/
theorem c2_first_success_short_circuit_witness :
    (∀ p ∈ (sourceChain envC2w).take 1, p.2 = none) ∧
    (sourceChain envC2w).get? 1 = some ("Finnhub", some fhQuoteC2w) ∧
    get_live_price envC2w = some fhQuoteC2w ∧
    queried_sources envC2w = ["MT5", "Finnhub"] := by
  have hfail : ∀ p ∈ (sourceChain envC2w).take 1, p.2 = none := by
    rw [sourceChain_envC2w]
    intro p hp
    simp only [List.take, List.mem_singleton] at hp
    rw [hp]
  have hok : (sourceChain envC2w).get? 1 = some ("Finnhub", some fhQuoteC2w) := by
    rw [sourceChain_envC2w]
    rfl
  have hw := c2_first_success_short_circuit envC2w 1 "Finnhub" fhQuoteC2w hfail hok
  refine ⟨hfail, hok, hw.1, hw.2.trans ?_⟩
  rw [sourceChain_envC2w]
  rfl

/-- Counterexample environment for C2 as frozen: MT5 fails outright, Alpha
Vantage answers with a negative price (a failure mode per the claim), and
Finnhub holds a structurally valid quote. -/
def envC2 : MarketEnv :=
  { mt5_init_ok := true, mt5_tick := none, alpha_vantage_key := true,
    av := some { status_ok := true, has_global_quote := true, price := -5 },
    fh := some { status_ok := true, price := 2000 }, now := 7 }

/-- The quote the Alpha Vantage fetcher synthesizes in `envC2`. -/
def avQuoteC2 : Quote :=
  { price := -5, bid := -11 / 2, ask := -9 / 2, timestamp := 7,
    source := "AlphaVantage" }

/-- The quote the Finnhub fetcher synthesizes in `envC2`. -/
def fhQuoteC2 : Quote :=
  { price := 2000, bid := 3999 / 2, ask := 4001 / 2, timestamp := 7,
    source := "Finnhub" }

/-- C2 counterexample: the sources before Finnhub both fail per the
claim's failure modes (MT5 by transport failure, Alpha Vantage by a
zero/negative price) and Finnhub holds a structurally valid quote, yet
`get_live_price` returns the Alpha Vantage quote with its negative price,
not Finnhub's: the code accepts a negative Alpha Vantage price. -/
theorem c2_claim_counterexample :
    fetch_from_mt5 envC2 = none ∧
    fetch_from_alpha_vantage envC2 = some avQuoteC2 ∧ avQuoteC2.price < 0 ∧
    fetch_from_finnhub envC2 = some fhQuoteC2 ∧
    0 < fhQuoteC2.price ∧ fhQuoteC2.bid ≤ fhQuoteC2.ask ∧
    get_live_price envC2 = some avQuoteC2 ∧ avQuoteC2 ≠ fhQuoteC2 := by
  have hm : fetch_from_mt5 envC2 = none := rfl
  have ha : fetch_from_alpha_vantage envC2 = some avQuoteC2 := by
    norm_num [fetch_from_alpha_vantage, envC2, avQuoteC2, Quote.mk.injEq]
  refine ⟨hm, ha, by norm_num [avQuoteC2], ?_, by norm_num [fhQuoteC2],
    by norm_num [fhQuoteC2], ?_, by norm_num [avQuoteC2, fhQuoteC2, Quote.mk.injEq]⟩
  · norm_num [fetch_from_finnhub, envC2, fhQuoteC2, Quote.mk.injEq]
  · unfold get_live_price
    rw [hm, ha]
    norm_num [envC2]

/-! ## Claim C3 -/

/-- A quote produced by the Alpha Vantage fetcher always has its bid half
a spread below its ask. -/
theorem fetch_from_alpha_vantage_bid_le_ask (env : MarketEnv) (q : Quote)
    (h : fetch_from_alpha_vantage env = some q) : q.bid ≤ q.ask := by
  unfold fetch_from_alpha_vantage at h
  cases hav : env.av with
  | none => rw [hav] at h; exact absurd h (by simp)
  | some r =>
      rw [hav] at h
      dsimp only at h
      split_ifs at h
      injection h with h2
      rw [← h2]
      norm_num
      linarith

/-- A quote produced by the Finnhub fetcher always has its bid half a
spread below its ask. -/
theorem fetch_from_finnhub_bid_le_ask (env : MarketEnv) (q : Quote)
    (h : fetch_from_finnhub env = some q) : q.bid ≤ q.ask := by
  unfold fetch_from_finnhub at h
  cases hfh : env.fh with
  | none => rw [hfh] at h; exact absurd h (by simp)
  | some r =>
      rw [hfh] at h
      dsimp only at h
      split_ifs at h
      injection h with h2
      rw [← h2]
      norm_num
      linarith

/-- A quote produced by the MT5 fetcher copies the tick's bid and ask
verbatim: no validation of any kind is applied. -/
theorem fetch_from_mt5_shape (env : MarketEnv) (q : Quote)
    (h : fetch_from_mt5 env = some q) :
    ∃ t, env.mt5_tick = some t ∧ q.bid = t.bid ∧ q.ask = t.ask := by
  unfold fetch_from_mt5 at h
  split_ifs at h
  cases ht : env.mt5_tick with
  | none => rw [ht] at h; exact absurd h (by simp)
  | some t =>
      rw [ht] at h
      dsimp only at h
      injection h with h2
      exact ⟨t, rfl, by rw [← h2], by rw [← h2]⟩

/-- C3 as amended: the fallback fetchers always synthesize an ordered
bid/ask pair, but the MT5 fetcher forwards its tick unvalidated, so
`get_live_price` returns an ordered quote provided the MT5 tick (when one
is present) is itself ordered. -/
theorem c3_bid_le_ask_amended (env : MarketEnv) (q : Quote)
    (hmt5 : ∀ t, env.mt5_tick = some t → t.bid ≤ t.ask)
    (hq : get_live_price env = some q) : q.bid ≤ q.ask := by
  unfold get_live_price at hq
  cases hm : fetch_from_mt5 env with
  | some qm =>
      rw [hm] at hq
      injection hq with h2
      obtain ⟨t, ht, hbid, hask⟩ := fetch_from_mt5_shape env qm hm
      rw [← h2, hbid, hask]
      exact hmt5 t ht
  | none =>
      rw [hm] at hq
      by_cases hk : env.alpha_vantage_key
      · rw [if_pos hk] at hq
        cases ha : fetch_from_alpha_vantage env with
        | some qa =>
            rw [ha] at hq
            injection hq with h2
            rw [← h2]
            exact fetch_from_alpha_vantage_bid_le_ask env qa ha
        | none =>
            rw [ha] at hq
            cases hf : fetch_from_finnhub env with
            | some qf =>
                rw [hf] at hq
                injection hq with h2
                rw [← h2]
                exact fetch_from_finnhub_bid_le_ask env qf hf
            | none => rw [hf] at hq; exact absurd hq (by simp)
      · rw [if_neg hk] at hq
        cases hf : fetch_from_finnhub env with
        | some qf =>
            rw [hf] at hq
            injection hq with h2
            rw [← h2]
            exact fetch_from_finnhub_bid_le_ask env qf hf
        | none => rw [hf] at hq; exact absurd hq (by simp)

/-- Counterexample environment for C3: the MT5 terminal reports an
inverted tick (bid 5, ask 1). -/
def envC3 : MarketEnv :=
  { mt5_init_ok := true, mt5_tick := some { bid := 5, ask := 1, time := 3 },
    alpha_vantage_key := false, av := none,
    fh := some { status_ok := true, price := 2000 }, now := 3 }

/-- The quote `get_live_price` returns in `envC3`. -/
def mt5QuoteC3 : Quote :=
  { price := 3, bid := 5, ask := 1, timestamp := 3, source := "MT5" }

/-- C3 counterexample: an inverted MT5 tick flows through `get_live_price`
untouched, so the aggregator does return a quote with bid > ask. -/
theorem c3_claim_counterexample :
    get_live_price envC3 = some mt5QuoteC3 ∧ mt5QuoteC3.ask < mt5QuoteC3.bid := by
  constructor
  · have hm : fetch_from_mt5 envC3 = some mt5QuoteC3 := by
      norm_num [fetch_from_mt5, envC3, mt5QuoteC3, Quote.mk.injEq]
    unfold get_live_price
    rw [hm]
  · norm_num [mt5QuoteC3]

/-- Witness environment for C3 as amended: a well-ordered MT5 tick. -/
def envC3w : MarketEnv :=
  { mt5_init_ok := true, mt5_tick := some { bid := 1999, ask := 2000, time := 11 },
    alpha_vantage_key := false, av := none, fh := none, now := 11 }

/-- The quote `get_live_price` returns in `envC3w`. -/
def mt5QuoteC3w : Quote :=
  { price := 3999 / 2, bid := 1999, ask := 2000, timestamp := 11, source := "MT5" }

/-- Witness for C3 as amended: with an ordered MT5 tick the returned
quote is ordered. -/
theorem c3_bid_le_ask_amended_witness :
    (∀ t, envC3w.mt5_tick = some t → t.bid ≤ t.ask) ∧
    get_live_price envC3w = some mt5QuoteC3w ∧
    mt5QuoteC3w.bid ≤ mt5QuoteC3w.ask := by
  have htick : ∀ t, envC3w.mt5_tick = some t → t.bid ≤ t.ask := by
    intro t ht
    have ht2 : some ({ bid := 1999, ask := 2000, time := 11 } : Tick) = some t := ht
    rw [← Option.some.inj ht2]
    norm_num
  have hq : get_live_price envC3w = some mt5QuoteC3w := by
    have hm : fetch_from_mt5 envC3w = some mt5QuoteC3w := by
      norm_num [fetch_from_mt5, envC3w, mt5QuoteC3w, Quote.mk.injEq]
    unfold get_live_price
    rw [hm]
  exact ⟨htick, hq, c3_bid_le_ask_amended envC3w mt5QuoteC3w htick hq⟩

/-! ## Claim C4 -/

/-- A broker response with a non-success return code makes
`open_position` return `None`, whatever else the environment holds. -/
theorem open_position_rejected (env : ExecEnv) (side : Side)
    (volume sl tp : ℚ) (comment : String) (r : OrderSendResult)
    (hr : env.send_result = some r) (hrc : r.retcode ≠ TRADE_RETCODE_DONE) :
    open_position env side volume sl tp comment = none := by
  unfold open_position
  split_ifs <;> try rfl
  cases ht : env.tick with
  | none => rfl
  | some t =>
      dsimp only
      rw [hr]
      dsimp only
      rw [if_pos hrc]

/-- C4 as amended: when the broker's return code is not success,
`_execute_buy` leaves both ledgers exactly as they were: no TradeRecord
of any status (in particular no `'opened'` one) is written, and no
AuditEvent is appended either — the rejected attempt is silently
dropped. -/
theorem c4_rejection_writes_nothing (sys : SysConfig) (risk : RiskManagerState)
    (lots : LotConfig) (env : ExecEnv) (symbol : String) (ask balance : ℚ)
    (led : Ledgers) (r : OrderSendResult)
    (hr : env.send_result = some r) (hrc : r.retcode ≠ TRADE_RETCODE_DONE) :
    execute_buy sys risk lots env symbol ask balance led = led := by
  unfold execute_buy
  dsimp only
  split_ifs with hv
  · rfl
  · rw [open_position_rejected env Side.buy _ _ _ "Auto buy" r hr hrc]

/-- Default config offsets read by `_execute_buy`. -/
def sysCfgD : SysConfig :=
  { default_sl_points := 10, default_tp_points := 20 }

/-- Environment for the C4 scenarios: a healthy connection and symbol, a
live tick, but a broker that answers the order with retcode 10004
(requote) instead of `TRADE_RETCODE_DONE`. -/
def envC4 : ExecEnv :=
  { init_ok := true, symbol_found := true, symbol_visible := true,
    symbol_select_ok := true, tick := some { bid := 1999, ask := 2000, time := 5 },
    send_result := some { retcode := 10004, order := 77, volume := 10, price := 2000 },
    now := 5 }

/-- C4 counterexample: a rejected submission that the sizing step would
have traded (volume 10, not 0) appends nothing to either ledger — in
particular no AuditEvent records the rejected attempt, contrary to the
claim that one always does. -/
theorem c4_claim_counterexample :
    envC4.send_result =
      some { retcode := 10004, order := 77, volume := 10, price := 2000 } ∧
    (10004 : ℕ) ≠ TRADE_RETCODE_DONE ∧
    calculate_position_size riskStateD lotCfgD 10000 2000 1990 = 10 ∧
    execute_buy sysCfgD riskStateD lotCfgD envC4 "XAUUSD" 2000 10000
        { trades := [], events := [] } =
      { trades := [], events := [] } := by
  refine ⟨rfl, by norm_num [TRADE_RETCODE_DONE], by with_unfolding_all decide, ?_⟩
  have hop : open_position envC4 Side.buy
      (calculate_position_size riskStateD lotCfgD 10000 2000 (2000 - sysCfgD.default_sl_points))
      (2000 - sysCfgD.default_sl_points) (2000 + sysCfgD.default_tp_points)
      "Auto buy" = none :=
    open_position_rejected envC4 Side.buy _ _ _ "Auto buy"
      { retcode := 10004, order := 77, volume := 10, price := 2000 }
      rfl (by norm_num [TRADE_RETCODE_DONE])
  unfold execute_buy
  dsimp only
  split_ifs with hv
  · rfl
  · rw [hop]

/-- A nonempty pair of ledgers, to exhibit preservation of prior rows. -/
def ledgersW : Ledgers :=
  { trades := [[Cell.str "header"]],
    events := [{ timestamp := 1, event_type := "SYSTEM_START",
                 description := "Trading system started", data := "" }] }

/-- Witness for C4 as amended: the same rejected submission leaves a
nonempty pair of ledgers untouched. -/
theorem c4_rejection_writes_nothing_witness :
    envC4.send_result =
      some { retcode := 10004, order := 77, volume := 10, price := 2000 } ∧
    (10004 : ℕ) ≠ TRADE_RETCODE_DONE ∧
    execute_buy sysCfgD riskStateD lotCfgD envC4 "XAUUSD" 2000 10000 ledgersW =
      ledgersW :=
  ⟨rfl, by norm_num [TRADE_RETCODE_DONE],
   c4_rejection_writes_nothing sysCfgD riskStateD lotCfgD envC4 "XAUUSD"
     2000 10000 ledgersW
     { retcode := 10004, order := 77, volume := 10, price := 2000 }
     rfl (by norm_num [TRADE_RETCODE_DONE])⟩

end Sentinel
